import Mathlib

/-!
Verification of the webwire-go core against its specification.

The development shallowly embeds the parts of the repository the claims
touch: the client-side inbound message dispatcher (client/handle.go), the
server-side session restoration handler and graceful shutdown
(handleSessionRestore and server.Shutdown), the default file-based session
manager, and — where the deciding code is not part of the provided sources —
models written from the specification text (the operation gate of the
shutdown protocol, the request-frame parser and the client outbound gate),
each marked as such in its doc comment.

Byte strings are modelled as `List Nat`, machine timestamps as `Nat`, and
fallible external collaborators (JSON marshalling, the persistence port,
the filesystem) as explicit `Option`/`Except`-valued parameters.
-/

namespace Webwire

/-! ## Message-kind tags

Modelled from the spec: the literal byte assignments live in the message
module, which is not among the provided sources; the spec requires only
that each tag is a distinct 8-bit value and that the tag space is disjoint
across categories. The values below are one such distinct assignment. -/

/-- Modelled from the spec: error-reply tag (`[MsgErrorReply][reqId:8][json ReqErr]`). -/
def MsgErrorReply : Nat := 0

/-- Modelled from the spec: shutdown-failure reply tag. -/
def MsgReplyShutdown : Nat := 1

/-- Modelled from the spec: internal-error reply tag. -/
def MsgReplyInternalError : Nat := 2

/-- Modelled from the spec: session-not-found reply tag. -/
def MsgSessionNotFound : Nat := 3

/-- Modelled from the spec: max-session-connections-reached reply tag. -/
def MsgMaxSessConnsReached : Nat := 4

/-- Modelled from the spec: sessions-disabled reply tag. -/
def MsgSessionsDisabled : Nat := 5

/-- Modelled from the spec: protocol-error reply tag (`[kind][reqId:8]`, no payload). -/
def MsgReplyProtocolError : Nat := 6

/-- Modelled from the spec: session-created notification tag. -/
def MsgSessionCreated : Nat := 21

/-- Modelled from the spec: session-closed notification tag. -/
def MsgSessionClosed : Nat := 22

/-- Modelled from the spec: close-session request tag. -/
def MsgCloseSession : Nat := 31

/-- Modelled from the spec: restore-session request tag. -/
def MsgRestoreSession : Nat := 32

/-- Modelled from the spec: binary signal tag. -/
def MsgSignalBinary : Nat := 63

/-- Modelled from the spec: UTF-8 signal tag. -/
def MsgSignalUtf8 : Nat := 64

/-- Modelled from the spec: UTF-16 signal tag. -/
def MsgSignalUtf16 : Nat := 65

/-- Modelled from the spec: binary request tag. -/
def MsgRequestBinary : Nat := 127

/-- Modelled from the spec: UTF-8 request tag. -/
def MsgRequestUtf8 : Nat := 128

/-- Modelled from the spec: UTF-16 request tag. -/
def MsgRequestUtf16 : Nat := 129

/-- Modelled from the spec: binary reply tag. -/
def MsgReplyBinary : Nat := 191

/-- Modelled from the spec: UTF-8 reply tag. -/
def MsgReplyUtf8 : Nat := 192

/-- Modelled from the spec: UTF-16 reply tag. -/
def MsgReplyUtf16 : Nat := 193

/-! ## Payloads and sessions -/

/-- Payload encodings (webwire.EncodingBinary / EncodingUtf8 / EncodingUtf16). -/
inductive Encoding
  | binary
  | utf8
  | utf16
deriving DecidableEq, Repr

/-- webwire.Payload: an encoding together with the raw data bytes. -/
structure Payload where
  Encoding : Encoding
  Data : List Nat
deriving DecidableEq, Repr

/-- webwire.Session: key, creation and last-lookup timestamps, and the
opaque info attribute bag (modelled as an optional string). -/
structure Session where
  Key : String
  Creation : Nat
  LastLookup : Nat
  Info : Option String
deriving DecidableEq, Repr

/-- webwire.ReqErr: a user-handler-produced error with code and message.
Its Go zero value has both fields empty. -/
structure ReqErr where
  Code : String
  Message : String
deriving DecidableEq, Repr

/-- Typed request failures the client translates inbound failure frames into. -/
inductive ReqFailure
  | reqErr (e : ReqErr)
  | internalErr
  | srvShutdown
  | sessNotFound
  | maxSessConnsReached
  | sessionsDisabled
deriving DecidableEq, Repr

/-! ## Client inbound dispatch (client/handle.go)

`Client.handleMessage` is embedded as a pure function from the raw frame
bytes to the list of side effects it performs, in program order. JSON
unmarshalling (an external collaborator) is passed in as an environment of
partial parsing functions. -/

/-- One observable side effect of the client message dispatcher. -/
inductive ClientAction
  | fulfill (reqId : List Nat) (payload : Payload)
  | fail (reqId : List Nat) (failure : ReqFailure)
  | serverSignalHook (payload : Payload)
  | setSessionMirror (s : Session)
  | sessionCreatedHook (s : Session)
  | clearSessionMirror
  | sessionClosedHook
  | logParseError
  | warnStrangeMessage (tag : Nat)
deriving DecidableEq, Repr

/-- External JSON decoding used by the client handlers: `json.Unmarshal`
into a `webwire.Session` and into a `webwire.ReqErr`. -/
structure ClientEnv where
  unmarshalSession : List Nat → Option Session
  unmarshalReqErr : List Nat → Option ReqErr

/-- extractMessageIdentifier: the 8 request-identifier bytes `message[1:9]`. -/
def extractMessageIdentifier (message : List Nat) : List Nat :=
  (message.drop 1).take 8

/-- Client.handleSessionCreated: unmarshal the session JSON; on failure log
and return, otherwise publish the session and invoke the hook. -/
def Client.handleSessionCreated (env : ClientEnv) (sessionKey : List Nat) :
    List ClientAction :=
  match env.unmarshalSession sessionKey with
  | none => [.logParseError]
  | some session => [.setSessionMirror session, .sessionCreatedHook session]

/-- Client.handleSessionClosed: clear the local session and invoke the hook. -/
def Client.handleSessionClosed : List ClientAction :=
  [.clearSessionMirror, .sessionClosedHook]

/-- Client.handleFailure: unmarshal the error reply; a failed unmarshal is
logged but the request is still failed with the zero-valued ReqErr. -/
def Client.handleFailure (env : ClientEnv) (reqID : List Nat)
    (payload : List Nat) : List ClientAction :=
  match env.unmarshalReqErr payload with
  | none => [.logParseError, .fail reqID (.reqErr ⟨"", ""⟩)]
  | some replyErr => [.fail reqID (.reqErr replyErr)]

/-- Client.handleMessage: dispatch a raw inbound frame by its first byte.
Frames shorter than one byte are ignored; unknown tags are logged. -/
def Client.handleMessage (env : ClientEnv) (message : List Nat) :
    List ClientAction :=
  match message with
  | [] => []
  | tag :: _ =>
    if tag = MsgReplyBinary then
      [.fulfill (extractMessageIdentifier message)
        ⟨.binary, message.drop 9⟩]
    else if tag = MsgReplyUtf8 then
      [.fulfill (extractMessageIdentifier message)
        ⟨.utf8, message.drop 9⟩]
    else if tag = MsgReplyUtf16 then
      [.fulfill (extractMessageIdentifier message)
        ⟨.utf16, message.drop 10⟩]
    else if tag = MsgReplyShutdown then
      [.fail (extractMessageIdentifier message) .srvShutdown]
    else if tag = MsgSessionNotFound then
      [.fail (extractMessageIdentifier message) .sessNotFound]
    else if tag = MsgMaxSessConnsReached then
      [.fail (extractMessageIdentifier message) .maxSessConnsReached]
    else if tag = MsgSessionsDisabled then
      [.fail (extractMessageIdentifier message) .sessionsDisabled]
    else if tag = MsgErrorReply then
      Client.handleFailure env (extractMessageIdentifier message)
        (message.drop 9)
    else if tag = MsgReplyInternalError then
      [.fail (extractMessageIdentifier message) .internalErr]
    else if tag = MsgSignalBinary then
      [.serverSignalHook ⟨.binary, message.drop 2⟩]
    else if tag = MsgSignalUtf8 then
      [.serverSignalHook ⟨.utf8, message.drop 2⟩]
    else if tag = MsgSignalUtf16 then
      [.serverSignalHook ⟨.utf16, message.drop 2⟩]
    else if tag = MsgSessionCreated then
      Client.handleSessionCreated env (message.drop 1)
    else if tag = MsgSessionClosed then
      Client.handleSessionClosed
    else
      [.warnStrangeMessage tag]

/-- The tags the client dispatcher has a case for. -/
def knownClientTags : List Nat :=
  [MsgReplyBinary, MsgReplyUtf8, MsgReplyUtf16, MsgReplyShutdown,
   MsgSessionNotFound, MsgMaxSessConnsReached, MsgSessionsDisabled,
   MsgErrorReply, MsgReplyInternalError, MsgSignalBinary, MsgSignalUtf8,
   MsgSignalUtf16, MsgSessionCreated, MsgSessionClosed]

/-- Effect of one client action on the session mirror. -/
def applyAction (session : Option Session) : ClientAction → Option Session
  | .setSessionMirror s => some s
  | .clearSessionMirror => none
  | _ => session

/-- Effect of an action trace on the session mirror, in order. -/
def applyActions (session : Option Session) (actions : List ClientAction) :
    Option Session :=
  actions.foldl applyAction session

/-! ## Server-side session restoration (handleSessionRestore)

The handler is embedded as a pure function from the server's restoration
environment and the session key to the list of side effects it performs,
in program order. The session registry (whose own code is not among the
provided sources) is modelled from the spec as an association from session
key to bucket size. -/

/-- The result returned by SessionManager.OnSessionLookup: a stored
session's creation and last-lookup timestamps and its raw info. -/
structure SessionLookupResult where
  creation : Nat
  lastLookup : Nat
  info : Option String
deriving DecidableEq, Repr

/-- webwire.JSONEncodedSession: the struct handed to json.Marshal on the
restoration success path. -/
structure JSONEncodedSession where
  Key : String
  Creation : Nat
  LastLookup : Nat
  Info : Option String
deriving DecidableEq, Repr

/-- Modelled from the spec: the session registry, whose code is not among
the provided sources. A bucket maps a session key to the number of live
connections bound to it; absent keys have no bucket. `maxConns = 0` means
unlimited. -/
structure SessionRegistry where
  buckets : List (String × Nat)
  maxConns : Nat
deriving DecidableEq, Repr

/-- Modelled from the spec: sessionConnectionsNum returns `-1` if the key
has no bucket, else the bucket size. -/
def SessionRegistry.sessionConnectionsNum (reg : SessionRegistry)
    (key : String) : Int :=
  match reg.buckets.lookup key with
  | none => -1
  | some n => (n : Int)

/-- Modelled from the spec: register(conn) fails with MaxSessConnsReached
iff `maxConns > 0` and the key's bucket is already at capacity (an absent
bucket counts as empty). -/
def SessionRegistry.registerFails (reg : SessionRegistry)
    (key : String) : Bool :=
  decide (0 < reg.maxConns ∧ reg.maxConns ≤ (reg.buckets.lookup key).getD 0)

/-- The typed failures failMsg can attach to a reply; `failMsg none` in the
handler denotes the internal-error reply. -/
inductive MsgFailure
  | sessionsDisabled
  | maxSessConnsReached
  | sessNotFound
deriving DecidableEq, Repr

/-- One observable side effect of the restoration handler, in program
order: failure replies, error logging, binding the session to the
connection, registry registration, the fatal panic branch, and the
success reply. -/
inductive WireEffect
  | failMsg (err : Option MsgFailure)
  | logError
  | setSession (s : Session)
  | registerConn
  | panicFatal
  | fulfillMsg (enc : Encoding) (data : List Nat)
deriving DecidableEq, Repr

/-- The server state the restoration handler reads: whether sessions are
enabled, the registry, the persistence lookup hook, json.Marshal (an
external collaborator that may fail), and the optional session-info
parser. -/
structure RestoreServer where
  sessionsEnabled : Bool
  sessionRegistry : SessionRegistry
  sessionManagerLookup : String → Except Unit (Option SessionLookupResult)
  jsonMarshal : JSONEncodedSession → Option (List Nat)
  sessionInfoParser : Option (String → String)

/-- The connection-cap guard of handleSessionRestore:
`sessConsNum >= 0 && maxConns > 0 && uint(sessConsNum+1) > maxConns`. -/
def capExceeded (reg : SessionRegistry) (key : String) : Prop :=
  0 ≤ reg.sessionConnectionsNum key ∧ 0 < reg.maxConns ∧
    (reg.maxConns : Int) < reg.sessionConnectionsNum key + 1

instance (reg : SessionRegistry) (key : String) :
    Decidable (capExceeded reg key) := by
  unfold capExceeded
  exact inferInstance

/-- The JSONEncodedSession built by the handler from the looked-up
session: the requested key plus the stored timestamps and raw info. -/
def encodedSessionObj (key : String) (result : SessionLookupResult) :
    JSONEncodedSession :=
  { Key := key, Creation := result.creation,
    LastLookup := result.lastLookup, Info := result.info }

/-- The parsed session info: the injected parser applied to the raw info
when both are present, otherwise the zero value (nil). -/
def parsedSessInfo (srv : RestoreServer) (result : SessionLookupResult) :
    Option String :=
  match result.info, srv.sessionInfoParser with
  | some i, some p => some (p i)
  | _, _ => none

/-- The part of handleSessionRestore that follows the connection-cap
check: persistence lookup, JSON encoding, info parsing, session binding,
registration and the UTF-8 success reply. -/
def restoreLookupPhase (srv : RestoreServer) (key : String) :
    List WireEffect :=
  match srv.sessionManagerLookup key with
  | .error _ => [.failMsg none, .logError]
  | .ok none => [.failMsg (some .sessNotFound)]
  | .ok (some result) =>
    match srv.jsonMarshal (encodedSessionObj key result) with
    | none => [.failMsg none, .logError]
    | some encodedSession =>
      WireEffect.setSession
        { Key := key, Creation := result.creation,
          LastLookup := result.lastLookup,
          Info := parsedSessInfo srv result } ::
      (if srv.sessionRegistry.registerFails key then [.panicFatal]
       else [.registerConn, .fulfillMsg .utf8 encodedSession])

/-- handleSessionRestore: sessions-disabled gate, connection-cap check
against the registry, then the lookup phase. -/
def handleSessionRestore (srv : RestoreServer) (key : String) :
    List WireEffect :=
  if !srv.sessionsEnabled then
    [.failMsg (some .sessionsDisabled)]
  else if capExceeded srv.sessionRegistry key then
    [.failMsg (some .maxSessConnsReached)]
  else
    restoreLookupPhase srv key

/-! ## Graceful shutdown (server.Shutdown and the operation gate)

`server.Shutdown` is embedded from the source; the per-operation gate and
the handler-completion bookkeeping it synchronizes with are modelled from
the spec (their code is not among the provided sources). The whole is a
labelled transition system; each label is one critical section executed
under `opsLock`, and traces are arbitrary interleavings. -/

/-- The server state visible to the shutdown protocol: the shutdown flag,
the in-flight operation counter, whether the shutdownRdy channel holds a
signal, whether Shutdown has been called and has returned, and whether
the HTTP listener has been shut down. -/
structure SrvState where
  shutdown : Bool
  currentOps : Nat
  shutdownRdy : Bool
  shutdownCalled : Bool
  shutdownReturned : Bool
  httpClosed : Bool
deriving DecidableEq, Repr

/-- The initial server state: running, no in-flight operations. -/
def srvInit : SrvState :=
  { shutdown := false, currentOps := 0, shutdownRdy := false,
    shutdownCalled := false, shutdownReturned := false, httpClosed := false }

/-- One atomic step of the shutdown protocol. `beginOp` is a handler
starting, `endOp` a handler finishing, `rejectReq` a request answered
with MsgReplyShutdown, `dropSignal` a signal silently dropped,
`connAccept`/`connReject` the upgrader admitting or refusing a handshake,
and `shutdownCall`/`shutdownResume` the two halves of server.Shutdown. -/
inductive SrvLabel
  | beginOp
  | rejectReq
  | dropSignal
  | endOp
  | connAccept
  | connReject
  | shutdownCall
  | shutdownResume
deriving DecidableEq, Repr

/-- The guarded transition function. `shutdownCall` and `shutdownResume`
follow server.Shutdown: set the flag, return at once (shutting the HTTP
listener down) when `currentOps < 1`, otherwise block until the
shutdownRdy signal. Modelled from the spec: the operation gate
(`beginOp`, `rejectReq`, `dropSignal`, `endOp` with its
`shutdown && currentOps == 0` signal) and the upgrader's handshake gate,
whose code is not among the provided sources. -/
def step (s : SrvState) : SrvLabel → Option SrvState
  | .beginOp =>
    if s.shutdown then none
    else some { s with currentOps := s.currentOps + 1 }
  | .rejectReq => if s.shutdown then some s else none
  | .dropSignal => if s.shutdown then some s else none
  | .endOp =>
    match s.currentOps with
    | 0 => none
    | n + 1 =>
      some { s with currentOps := n,
                    shutdownRdy := s.shutdownRdy || (s.shutdown && n = 0) }
  | .connAccept => if s.shutdown then none else some s
  | .connReject => if s.shutdown then some s else none
  | .shutdownCall =>
    if s.shutdownCalled then none
    else if s.currentOps = 0 then
      some { s with shutdown := true, shutdownCalled := true,
                    shutdownReturned := true, httpClosed := true }
    else
      some { s with shutdown := true, shutdownCalled := true }
  | .shutdownResume =>
    if s.shutdownCalled && !s.shutdownReturned && s.shutdownRdy then
      some { s with shutdownReturned := true, httpClosed := true }
    else none

/-- Run a sequence of labels from a state; `none` if a guard fails. -/
def run (s : SrvState) : List SrvLabel → Option SrvState
  | [] => some s
  | l :: ls =>
    match step s l with
    | none => none
    | some s2 => run s2 ls

/-- The inductive invariant of the shutdown protocol: a shutdownRdy signal
or a returned Shutdown call implies the flag is set and no operation is in
flight, and a returned Shutdown has shut the HTTP listener down. -/
def ShutdownInv (s : SrvState) : Prop :=
  (s.shutdownRdy = true → s.shutdown = true ∧ s.currentOps = 0) ∧
  (s.shutdownReturned = true →
    s.shutdown = true ∧ s.currentOps = 0 ∧ s.httpClosed = true)

/-! ## Server-side request-frame parsing (protocol violations)

Modelled from the spec: the message codec is not among the provided
sources. A request frame is `[kind][reqId:8][nameLen:1][name][payload]`;
a name length exceeding the remaining bytes is a protocol violation, and
the server answers `[MsgReplyProtocolError][reqId:8]` when the request
identifier is recoverable, else drops the frame silently. -/

/-- A successfully parsed request frame. -/
structure ParsedRequest where
  reqId : List Nat
  name : List Nat
  payload : List Nat
deriving DecidableEq, Repr

/-- Modelled from the spec: parse a request frame. A parse error carries
the recovered 8-byte request identifier when one could be extracted. -/
def parseRequestFrame (frame : List Nat) :
    Except (Option (List Nat)) ParsedRequest :=
  match frame with
  | [] => .error none
  | _tag :: rest =>
    if rest.length < 8 then .error none
    else
      match rest.drop 8 with
      | [] => .error (some (rest.take 8))
      | nameLen :: tail =>
        if tail.length < nameLen then .error (some (rest.take 8))
        else .ok { reqId := rest.take 8, name := tail.take nameLen,
                   payload := tail.drop nameLen }

/-- Modelled from the spec: the reply the server writes for a frame that
fails to parse — `[MsgReplyProtocolError][reqId:8]` when the request
identifier is recoverable, nothing otherwise (well-formed frames are
dispatched, not answered here). -/
def serverProtocolErrorReply (frame : List Nat) : Option (List Nat) :=
  match parseRequestFrame frame with
  | .error none => none
  | .error (some reqId) => some (MsgReplyProtocolError :: reqId)
  | .ok _ => none

/-! ## Client outbound gate (autoconnect policy)

Modelled from the spec: the client core's connect policy is not among the
provided sources. When autoconnect is disabled, an outbound operation on a
disconnected client fails immediately with DisconnectedErr — no wire
traffic and no waiting for the request deadline. -/

/-- Client connection states. -/
inductive ClientStatus
  | disconnected
  | connecting
  | connected
deriving DecidableEq, Repr

/-- The Autoconnect client option. -/
inductive AutoconnectOpt
  | enabled
  | disabled
deriving DecidableEq, Repr

/-- Client-side operation failures relevant to the outbound gate. -/
inductive ClientOpError
  | disconnectedErr
  | timeoutErr
deriving DecidableEq, Repr

/-- What an outbound RestoreSession call did: its result, every frame it
put on the wire, and whether it waited for the request deadline. -/
structure RestoreAttempt where
  result : Except ClientOpError Unit
  sentFrames : List (List Nat)
  waitedForDeadline : Bool
deriving Repr

/-- Modelled from the spec: RestoreSession through the outbound gate. On a
connected client the restore-session frame is sent and the caller awaits
the reply up to the deadline; on a disconnected client the call either
fails immediately with DisconnectedErr (autoconnect disabled) or connects
first and then proceeds (autoconnect enabled). -/
def RestoreSession (auto : AutoconnectOpt) (status : ClientStatus)
    (key : List Nat) : RestoreAttempt :=
  if status = .connected then
    { result := .ok (), sentFrames := [MsgRestoreSession :: key],
      waitedForDeadline := true }
  else
    match auto with
    | .disabled =>
      { result := .error .disconnectedErr, sentFrames := [],
        waitedForDeadline := false }
    | .enabled =>
      { result := .ok (), sentFrames := [MsgRestoreSession :: key],
        waitedForDeadline := true }

/-! ## Default file-based session manager (part_000)

The filesystem is modelled as a finite map from paths to files; a file
either parses as a SessionFile or is corrupt (covering both read and
JSON-decode failures, which the source maps to a lookup error). -/

/-- SessionFile: the serialization structure of a default session file,
JSON body with fields "c" (creation) and "i" (info). -/
structure SessionFile where
  Creation : Nat
  Info : Option String
deriving DecidableEq, Repr

/-- A stored file: either a parseable session file or corrupt contents. -/
inductive FileEntry
  | parseable (sessf : SessionFile)
  | corrupt
deriving DecidableEq, Repr

/-- The filesystem visible to the session manager. -/
structure FileSystem where
  files : List (String × FileEntry)
deriving DecidableEq, Repr

/-- DefaultSessionManager: file-backed persistence rooted at a directory. -/
structure DefaultSessionManager where
  path : String
deriving DecidableEq, Repr

/-- filePath: `filepath.Join(mng.path, sessionKey + ".wwrsess")`. -/
def DefaultSessionManager.filePath (mng : DefaultSessionManager)
    (sessionKey : String) : String :=
  mng.path ++ "/" ++ sessionKey ++ ".wwrsess"

/-- A filesystem write request: target path, contents, permission mode. -/
structure FileWrite where
  path : String
  contents : SessionFile
  mode : Nat
deriving DecidableEq, Repr

/-- SessionFile.WriteFile: marshal the session file and write it with
mode 0640. -/
def SessionFile.WriteFile (sessf : SessionFile) (filePath : String) :
    FileWrite :=
  { path := filePath, contents := sessf, mode := 0o640 }

/-- Errors OnSessionLookup can surface (stat failure or a corrupt file). -/
inductive LookupFailure
  | fileCorrupt
deriving DecidableEq, Repr

/-- DefaultSessionManager.OnSessionLookup: resolve `<key>.wwrsess` in the
configured directory; absent file → null session and no error; parseable
file → a session carrying the looked-up key and the file's creation and
info (LastLookup keeps its zero value); unreadable or corrupt file → a
lookup error. -/
def DefaultSessionManager.OnSessionLookup (mng : DefaultSessionManager)
    (fs : FileSystem) (key : String) :
    Except LookupFailure (Option Session) :=
  match fs.files.lookup (mng.filePath key) with
  | none => .ok none
  | some .corrupt => .error .fileCorrupt
  | some (.parseable file) =>
    .ok (some { Key := key, Creation := file.Creation, LastLookup := 0,
                Info := file.Info })

/-! ## Concrete instances used by counterexamples and witnesses -/

/-- A restoration environment whose registry already holds the key's
bucket at the (positive) cap, with a lookup that would succeed. -/
def srvCapReached : RestoreServer :=
  { sessionsEnabled := true,
    sessionRegistry := { buckets := [("k", 1)], maxConns := 1 },
    sessionManagerLookup := fun _ => .ok (some ⟨0, 0, none⟩),
    jsonMarshal := fun _ => some [],
    sessionInfoParser := none }

/-- A restoration environment with no bucket for any key and a lookup
that finds nothing. -/
def srvNoBucket : RestoreServer :=
  { sessionsEnabled := true,
    sessionRegistry := { buckets := [], maxConns := 1 },
    sessionManagerLookup := fun _ => .ok none,
    jsonMarshal := fun _ => some [],
    sessionInfoParser := none }

/-- A restoration environment on which restoration fully succeeds. -/
def srvSuccess : RestoreServer :=
  { sessionsEnabled := true,
    sessionRegistry := { buckets := [], maxConns := 0 },
    sessionManagerLookup := fun _ => .ok (some ⟨5, 6, none⟩),
    jsonMarshal := fun _ => some [1, 2],
    sessionInfoParser := none }

/-- A client JSON environment whose decoders always fail. -/
def envNoParse : ClientEnv :=
  { unmarshalSession := fun _ => none, unmarshalReqErr := fun _ => none }

/-- A session manager rooted at a concrete directory. -/
def mngW : DefaultSessionManager := { path := "dir" }

/-- A filesystem holding one parseable session file for key "k". -/
def fsW : FileSystem :=
  { files := [("dir/k.wwrsess", .parseable ⟨7, none⟩)] }

/-! ## Theorems -/

/-- If the handler's connection-cap guard does not fire, a subsequent
registration of this connection under the same key cannot fail: with no
bucket the cap cannot already be met, and with a bucket of size below the
cap there is room for one more. -/
theorem registerFails_false_of_guard (reg : SessionRegistry) (key : String)
    (h : ¬capExceeded reg key) :
    reg.registerFails key = false := by
  unfold capExceeded at h
  unfold SessionRegistry.registerFails
  unfold SessionRegistry.sessionConnectionsNum at h
  cases hb : reg.buckets.lookup key with
  | none =>
    simp only [hb, Option.getD_none, decide_eq_false_iff_not, not_and]
    intro hmc
    omega
  | some b =>
    simp only [hb] at h
    simp only [hb, Option.getD_some, decide_eq_false_iff_not, not_and]
    intro hmc hle
    refine h ⟨Int.ofNat_nonneg b, hmc, ?_⟩
    have : (reg.maxConns : Int) ≤ (b : Int) := by exact_mod_cast hle
    omega

/-- With sessions disabled the handler answers SessionsDisabled at once. -/
theorem restore_disabled (srv : RestoreServer) (key : String)
    (h : srv.sessionsEnabled = false) :
    handleSessionRestore srv key = [.failMsg (some .sessionsDisabled)] := by
  unfold handleSessionRestore
  rw [h]
  simp

/-- With sessions enabled and the cap guard firing the handler answers
MaxSessConnsReached. -/
theorem restore_cap (srv : RestoreServer) (key : String)
    (hE : srv.sessionsEnabled = true)
    (hc : capExceeded srv.sessionRegistry key) :
    handleSessionRestore srv key = [.failMsg (some .maxSessConnsReached)] := by
  unfold handleSessionRestore
  rw [hE, if_neg (by decide : ¬((!true) = true)), if_pos hc]

/-- With sessions enabled and the cap guard passed, the handler's trace is
that of the lookup phase. -/
theorem restore_lookupPhase_eq (srv : RestoreServer) (key : String)
    (hE : srv.sessionsEnabled = true)
    (hc : ¬capExceeded srv.sessionRegistry key) :
    handleSessionRestore srv key = restoreLookupPhase srv key := by
  unfold handleSessionRestore
  rw [hE, if_neg (by decide : ¬((!true) = true)), if_neg hc]

/-- A failed lookup yields the internal-error reply and a log entry. -/
theorem lookupPhase_error (srv : RestoreServer) (key : String) (e : Unit)
    (hl : srv.sessionManagerLookup key = .error e) :
    restoreLookupPhase srv key = [.failMsg none, .logError] := by
  simp only [restoreLookupPhase, hl]

/-- A null lookup result yields the SessionNotFound reply. -/
theorem lookupPhase_none (srv : RestoreServer) (key : String)
    (hl : srv.sessionManagerLookup key = .ok none) :
    restoreLookupPhase srv key = [.failMsg (some .sessNotFound)] := by
  simp only [restoreLookupPhase, hl]

/-- A JSON-encoding failure of the looked-up session yields the
internal-error reply and a log entry. -/
theorem lookupPhase_marshal_none (srv : RestoreServer) (key : String)
    (r : SessionLookupResult)
    (hl : srv.sessionManagerLookup key = .ok (some r))
    (hm : srv.jsonMarshal (encodedSessionObj key r) = none) :
    restoreLookupPhase srv key = [.failMsg none, .logError] := by
  simp only [restoreLookupPhase, hl, hm]

/-- On a successful lookup and encoding, and a registration that cannot
fail, the handler binds the session, registers the connection, and sends
the UTF-8 reply, in that order. -/
theorem lookupPhase_success (srv : RestoreServer) (key : String)
    (r : SessionLookupResult) (enc : List Nat)
    (hl : srv.sessionManagerLookup key = .ok (some r))
    (hm : srv.jsonMarshal (encodedSessionObj key r) = some enc)
    (hreg : srv.sessionRegistry.registerFails key = false) :
    restoreLookupPhase srv key =
      [.setSession ⟨key, r.creation, r.lastLookup, parsedSessInfo srv r⟩,
       .registerConn, .fulfillMsg .utf8 enc] := by
  simp only [restoreLookupPhase, hl, hm, hreg]
  simp

/-- Case analysis of the restoration handler: its effect trace is one of
the four failure traces, or the success trace binding and registering the
looked-up session before the UTF-8 reply (the panic branch is unreachable
because the cap guard was just checked). -/
theorem handleSessionRestore_cases (srv : RestoreServer) (key : String) :
    handleSessionRestore srv key = [.failMsg (some .sessionsDisabled)] ∨
    handleSessionRestore srv key = [.failMsg (some .maxSessConnsReached)] ∨
    handleSessionRestore srv key = [.failMsg none, .logError] ∨
    handleSessionRestore srv key = [.failMsg (some .sessNotFound)] ∨
    ∃ r enc, srv.sessionManagerLookup key = .ok (some r) ∧
      srv.jsonMarshal (encodedSessionObj key r) = some enc ∧
      handleSessionRestore srv key =
        [.setSession ⟨key, r.creation, r.lastLookup, parsedSessInfo srv r⟩,
         .registerConn, .fulfillMsg .utf8 enc] := by
  by_cases hE : srv.sessionsEnabled = true
  · by_cases hc : capExceeded srv.sessionRegistry key
    · exact Or.inr (Or.inl (restore_cap srv key hE hc))
    · rw [restore_lookupPhase_eq srv key hE hc]
      cases hl : srv.sessionManagerLookup key with
      | error e =>
        exact Or.inr (Or.inr (Or.inl (lookupPhase_error srv key e hl)))
      | ok o =>
        cases o with
        | none =>
          exact Or.inr (Or.inr (Or.inr (Or.inl (lookupPhase_none srv key hl))))
        | some r =>
          cases hm : srv.jsonMarshal (encodedSessionObj key r) with
          | none =>
            exact Or.inr (Or.inr (Or.inl
              (lookupPhase_marshal_none srv key r hl hm)))
          | some enc =>
            exact Or.inr (Or.inr (Or.inr (Or.inr ⟨r, enc, rfl, hm,
              lookupPhase_success srv key r enc hl hm
                (registerFails_false_of_guard _ _ hc)⟩)))
  · have hF : srv.sessionsEnabled = false := by
      simp at hE
      exact hE
    exact Or.inl (restore_disabled srv key hF)

/-- The lookup phase never answers MaxSessConnsReached: that reply is
produced only by the cap guard that precedes it. -/
theorem lookupPhase_ne_maxSess (srv : RestoreServer) (key : String) :
    restoreLookupPhase srv key ≠ [.failMsg (some .maxSessConnsReached)] := by
  cases hl : srv.sessionManagerLookup key with
  | error e =>
    rw [lookupPhase_error srv key e hl]
    simp
  | ok o =>
    cases o with
    | none =>
      rw [lookupPhase_none srv key hl]
      simp
    | some r =>
      cases hm : srv.jsonMarshal (encodedSessionObj key r) with
      | none =>
        rw [lookupPhase_marshal_none srv key r hl hm]
        simp
      | some enc =>
        cases hreg : srv.sessionRegistry.registerFails key with
        | false =>
          rw [lookupPhase_success srv key r enc hl hm hreg]
          simp
        | true =>
          simp only [restoreLookupPhase, hl, hm, hreg]
          simp

/-- C1 — counterexample. The claim as stated (sessions-disabled, then
lookup error, then null session, else a UTF-8 reply) is false: a server
with sessions enabled whose registry already holds the key's bucket at a
positive cap answers MaxSessConnsReached without replying, even though
the lookup would succeed. -/
theorem restore_order_claim_false :
    ¬ (∀ (srv : RestoreServer) (key : String),
      (srv.sessionsEnabled = false →
        handleSessionRestore srv key = [.failMsg (some .sessionsDisabled)]) ∧
      (∀ e, srv.sessionsEnabled = true →
        srv.sessionManagerLookup key = .error e →
        handleSessionRestore srv key = [.failMsg none, .logError]) ∧
      (srv.sessionsEnabled = true →
        srv.sessionManagerLookup key = .ok none →
        handleSessionRestore srv key = [.failMsg (some .sessNotFound)]) ∧
      (∀ r, srv.sessionsEnabled = true →
        srv.sessionManagerLookup key = .ok (some r) →
        ∃ enc, WireEffect.fulfillMsg Encoding.utf8 enc ∈
          handleSessionRestore srv key)) := by
  intro hclaim
  obtain ⟨enc, hmem⟩ :=
    (hclaim srvCapReached ("k")).2.2.2 ⟨0, 0, none⟩ rfl rfl
  rw [show handleSessionRestore srvCapReached ("k") =
      [.failMsg (some .maxSessConnsReached)] from by decide] at hmem
  simp at hmem

/-- C1 — amended claim. For every MsgRestoreSession, the outcome ladder
is: sessions disabled → SessionsDisabled; else connection cap exceeded
(count ≥ 0, cap > 0, count+1 > cap) → MaxSessConnsReached; else lookup
error → internal error reply plus log; else null session →
SessionNotFound; else JSON encoding failure → internal error reply plus
log; else the session is bound and registered and a MsgReplyUtf8 frame
carries the JSON-encoded session. -/
theorem restore_outcome_order_amended (srv : RestoreServer) (key : String) :
    (srv.sessionsEnabled = false →
      handleSessionRestore srv key = [.failMsg (some .sessionsDisabled)]) ∧
    (srv.sessionsEnabled = true → capExceeded srv.sessionRegistry key →
      handleSessionRestore srv key = [.failMsg (some .maxSessConnsReached)]) ∧
    (∀ e, srv.sessionsEnabled = true →
      ¬capExceeded srv.sessionRegistry key →
      srv.sessionManagerLookup key = .error e →
      handleSessionRestore srv key = [.failMsg none, .logError]) ∧
    (srv.sessionsEnabled = true →
      ¬capExceeded srv.sessionRegistry key →
      srv.sessionManagerLookup key = .ok none →
      handleSessionRestore srv key = [.failMsg (some .sessNotFound)]) ∧
    (∀ r, srv.sessionsEnabled = true →
      ¬capExceeded srv.sessionRegistry key →
      srv.sessionManagerLookup key = .ok (some r) →
      srv.jsonMarshal (encodedSessionObj key r) = none →
      handleSessionRestore srv key = [.failMsg none, .logError]) ∧
    (∀ r enc, srv.sessionsEnabled = true →
      ¬capExceeded srv.sessionRegistry key →
      srv.sessionManagerLookup key = .ok (some r) →
      srv.jsonMarshal (encodedSessionObj key r) = some enc →
      handleSessionRestore srv key =
        [.setSession ⟨key, r.creation, r.lastLookup, parsedSessInfo srv r⟩,
         .registerConn, .fulfillMsg .utf8 enc]) := by
  refine ⟨?_, ?_, ?_, ?_, ?_, ?_⟩
  · exact restore_disabled srv key
  · exact restore_cap srv key
  · intro e hE hc hl
    rw [restore_lookupPhase_eq srv key hE hc]
    exact lookupPhase_error srv key e hl
  · intro hE hc hl
    rw [restore_lookupPhase_eq srv key hE hc]
    exact lookupPhase_none srv key hl
  · intro r hE hc hl hm
    rw [restore_lookupPhase_eq srv key hE hc]
    exact lookupPhase_marshal_none srv key r hl hm
  · intro r enc hE hc hl hm
    rw [restore_lookupPhase_eq srv key hE hc]
    exact lookupPhase_success srv key r enc hl hm
      (registerFails_false_of_guard _ _ hc)

/-- C1 — witness: a concrete fully-successful restoration takes the
success arm of the amended ladder. -/
theorem restore_outcome_order_amended_witness :
    handleSessionRestore srvSuccess ("r") =
      [.setSession ⟨"r", 5, 6, none⟩, .registerConn,
       .fulfillMsg .utf8 [1, 2]] :=
  (restore_outcome_order_amended srvSuccess ("r")).2.2.2.2.2 ⟨5, 6, none⟩
    [1, 2] rfl (by decide) rfl rfl

/-- C4 — with sessions enabled, the handler replies MaxSessConnsReached
exactly when the registry count is non-negative, the cap is positive, and
count+1 exceeds the cap; a count of -1 (no bucket) passes the check and
the lookup phase proceeds. -/
theorem max_sess_conns_condition (srv : RestoreServer) (key : String)
    (h : srv.sessionsEnabled = true) :
    (handleSessionRestore srv key = [.failMsg (some .maxSessConnsReached)] ↔
      0 ≤ srv.sessionRegistry.sessionConnectionsNum key ∧
      0 < srv.sessionRegistry.maxConns ∧
      (srv.sessionRegistry.maxConns : Int) <
        srv.sessionRegistry.sessionConnectionsNum key + 1) ∧
    (srv.sessionRegistry.sessionConnectionsNum key = -1 →
      handleSessionRestore srv key = restoreLookupPhase srv key) := by
  constructor
  · constructor
    · intro htr
      by_contra hc
      have hc2 : ¬capExceeded srv.sessionRegistry key := hc
      rw [restore_lookupPhase_eq srv key h hc2] at htr
      exact lookupPhase_ne_maxSess srv key htr
    · intro hc
      exact restore_cap srv key h hc
  · intro hneg
    apply restore_lookupPhase_eq srv key h
    intro hc
    have h1 := hc.1
    rw [hneg] at h1
    exact absurd h1 (by decide)

/-- C4 — witness: a bucket already at a positive cap yields
MaxSessConnsReached, and an absent bucket proceeds to the lookup phase. -/
theorem max_sess_conns_condition_witness :
    handleSessionRestore srvCapReached ("k") =
      [.failMsg (some .maxSessConnsReached)] ∧
    handleSessionRestore srvNoBucket ("k") =
      restoreLookupPhase srvNoBucket ("k") := by
  constructor
  · exact (max_sess_conns_condition srvCapReached ("k") rfl).1.mpr (by decide)
  · exact (max_sess_conns_condition srvNoBucket ("k") rfl).2 (by decide)

/-- C9 — restoration is atomic with respect to connection and registry
state: any failing outcome performs neither setSession nor register, and
whenever setSession occurs the trace is exactly session binding, then
registration, then the UTF-8 reply. -/
theorem restore_atomicity (srv : RestoreServer) (key : String) :
    ((∃ e, WireEffect.failMsg e ∈ handleSessionRestore srv key) →
      (∀ s, WireEffect.setSession s ∉ handleSessionRestore srv key) ∧
      WireEffect.registerConn ∉ handleSessionRestore srv key) ∧
    (∀ s, WireEffect.setSession s ∈ handleSessionRestore srv key →
      ∃ enc, handleSessionRestore srv key =
        [.setSession s, .registerConn, .fulfillMsg .utf8 enc]) := by
  rcases handleSessionRestore_cases srv key with
    h | h | h | h | ⟨r, enc, hl, hm, h⟩
  · refine ⟨fun _ => ⟨fun s hs => ?_, fun hs => ?_⟩, fun s hs => ?_⟩ <;>
      rw [h] at hs <;> simp at hs
  · refine ⟨fun _ => ⟨fun s hs => ?_, fun hs => ?_⟩, fun s hs => ?_⟩ <;>
      rw [h] at hs <;> simp at hs
  · refine ⟨fun _ => ⟨fun s hs => ?_, fun hs => ?_⟩, fun s hs => ?_⟩ <;>
      rw [h] at hs <;> simp at hs
  · refine ⟨fun _ => ⟨fun s hs => ?_, fun hs => ?_⟩, fun s hs => ?_⟩ <;>
      rw [h] at hs <;> simp at hs
  · constructor
    · intro hfail
      obtain ⟨e, he⟩ := hfail
      rw [h] at he
      simp at he
    · intro s hs
      rw [h] at hs
      simp only [List.mem_cons, List.not_mem_nil, or_false] at hs
      rcases hs with hs | hs | hs
      · rw [WireEffect.setSession.injEq] at hs
        rw [hs]
        exact ⟨enc, h⟩
      · exact absurd hs (by simp)
      · exact absurd hs (by simp)

/-- C9 — witness: at the cap-reached server no setSession or register
occurs, and at the successful server the trace is exactly bind, register,
reply. -/
theorem restore_atomicity_witness :
    WireEffect.setSession ⟨"k", 0, 0, none⟩ ∉
      handleSessionRestore srvCapReached ("k") ∧
    WireEffect.registerConn ∉ handleSessionRestore srvCapReached ("k") ∧
    handleSessionRestore srvSuccess ("r") =
      [.setSession ⟨"r", 5, 6, none⟩, .registerConn,
       .fulfillMsg .utf8 [1, 2]] := by
  have h1 := (restore_atomicity srvCapReached ("k")).1
    ⟨some .maxSessConnsReached, by decide⟩
  have hcomp : handleSessionRestore srvSuccess ("r") =
      [.setSession ⟨"r", 5, 6, none⟩, .registerConn,
       .fulfillMsg .utf8 [1, 2]] := by decide
  exact ⟨h1.1 ⟨"k", 0, 0, none⟩, h1.2, hcomp⟩

/-- The invariant holds in the initial state. -/
theorem shutdownInv_init : ShutdownInv srvInit := by
  constructor <;> intro h <;> simp [srvInit] at h

/-- Every step of the shutdown protocol preserves the invariant. -/
theorem shutdownInv_step (s s2 : SrvState) (l : SrvLabel)
    (hInv : ShutdownInv s) (h : step s l = some s2) : ShutdownInv s2 := by
  obtain ⟨hrdy, hret⟩ := hInv
  cases l with
  | beginOp =>
    simp only [step] at h
    split at h
    · exact absurd h (by simp)
    · rename_i hsd
      obtain rfl := Option.some.inj h
      constructor
      · intro hr
        exact absurd (hrdy hr).1 hsd
      · intro hr
        exact absurd (hret hr).1 hsd
  | rejectReq =>
    simp only [step] at h
    split at h
    · obtain rfl := Option.some.inj h
      exact ⟨hrdy, hret⟩
    · exact absurd h (by simp)
  | dropSignal =>
    simp only [step] at h
    split at h
    · obtain rfl := Option.some.inj h
      exact ⟨hrdy, hret⟩
    · exact absurd h (by simp)
  | endOp =>
    simp only [step] at h
    split at h
    · exact absurd h (by simp)
    · rename_i n hops
      obtain rfl := Option.some.inj h
      constructor
      · intro hr
        simp only [Bool.or_eq_true, Bool.and_eq_true, decide_eq_true_eq] at hr
        rcases hr with hr | ⟨hsd, hn⟩
        · have h0 := (hrdy hr).2
          rw [hops] at h0
          exact absurd h0 (Nat.succ_ne_zero n)
        · exact ⟨hsd, hn⟩
      · intro hr
        have h0 := (hret hr).2.1
        rw [hops] at h0
        exact absurd h0 (Nat.succ_ne_zero n)
  | connAccept =>
    simp only [step] at h
    split at h
    · exact absurd h (by simp)
    · obtain rfl := Option.some.inj h
      exact ⟨hrdy, hret⟩
  | connReject =>
    simp only [step] at h
    split at h
    · obtain rfl := Option.some.inj h
      exact ⟨hrdy, hret⟩
    · exact absurd h (by simp)
  | shutdownCall =>
    simp only [step] at h
    split at h
    · exact absurd h (by simp)
    · split at h
      · rename_i hops
        obtain rfl := Option.some.inj h
        constructor
        · intro _
          exact ⟨rfl, hops⟩
        · intro _
          exact ⟨rfl, hops, rfl⟩
      · obtain rfl := Option.some.inj h
        constructor
        · intro hr
          exact ⟨rfl, (hrdy hr).2⟩
        · intro hr
          exact ⟨rfl, (hret hr).2.1, (hret hr).2.2⟩
  | shutdownResume =>
    simp only [step] at h
    split at h
    · rename_i hcond
      simp only [Bool.and_eq_true, Bool.not_eq_true'] at hcond
      obtain rfl := Option.some.inj h
      have hflag := hrdy hcond.2
      constructor
      · intro _
        exact hflag
      · intro _
        exact ⟨hflag.1, hflag.2, rfl⟩
    · exact absurd h (by simp)

/-- The invariant holds in every state reachable by a run. -/
theorem shutdownInv_run (tr : List SrvLabel) (s s2 : SrvState)
    (hInv : ShutdownInv s) (h : run s tr = some s2) : ShutdownInv s2 := by
  induction tr generalizing s with
  | nil =>
    simp only [run] at h
    obtain rfl := Option.some.inj h
    exact hInv
  | cons l ls ih =>
    simp only [run] at h
    cases hstep : step s l with
    | none =>
      rw [hstep] at h
      exact absurd h (by simp)
    | some s3 =>
      rw [hstep] at h
      exact ih s3 (shutdownInv_step s s3 l hInv hstep) h

/-- C2 — after any run from the initial state: a call to Shutdown sets
the flag, returns at once (shutting the HTTP listener) exactly when no
operation is in flight and otherwise blocks until the shutdownRdy signal;
once Shutdown has returned, every in-flight handler has finished
(`currentOps = 0`), no new handler can start, new connections are
refused, and new requests are rejected with the shutdown reply. -/
theorem shutdown_drains_and_gates (tr : List SrvLabel) (s : SrvState)
    (h : run srvInit tr = some s) :
    (∀ s2, step s .shutdownCall = some s2 →
      s2.shutdown = true ∧
      (s.currentOps = 0 → s2.shutdownReturned = true ∧ s2.httpClosed = true) ∧
      (s.currentOps ≠ 0 → s2.shutdownReturned = s.shutdownReturned)) ∧
    (s.shutdownRdy = false → step s .shutdownResume = none) ∧
    (s.shutdownReturned = true →
      s.shutdown = true ∧ s.currentOps = 0 ∧ s.httpClosed = true ∧
      step s .beginOp = none ∧ step s .connAccept = none ∧
      step s .rejectReq = some s) := by
  have hI := shutdownInv_run tr srvInit s shutdownInv_init h
  refine ⟨?_, ?_, ?_⟩
  · intro s2 hstep
    simp only [step] at hstep
    split at hstep
    · exact absurd hstep (by simp)
    · split at hstep
      · rename_i hops
        obtain rfl := Option.some.inj hstep
        exact ⟨rfl, fun _ => ⟨rfl, rfl⟩, fun hne => absurd hops hne⟩
      · rename_i hops
        obtain rfl := Option.some.inj hstep
        exact ⟨rfl, fun h0 => absurd h0 hops, fun _ => rfl⟩
  · intro hr
    simp [step, hr]
  · intro hr
    obtain ⟨hsd, hops, hhttp⟩ := hI.2 hr
    refine ⟨hsd, hops, hhttp, ?_, ?_, ?_⟩
    · simp [step, hsd]
    · simp [step, hsd]
    · simp [step, hsd]

/-- C2 — witness: a run with one in-flight operation at shutdown time;
Shutdown blocks, the operation finishes and signals, Shutdown resumes,
and in the final state new operations and connections are refused. -/
theorem shutdown_drains_and_gates_witness :
    run srvInit [.beginOp, .shutdownCall, .endOp, .shutdownResume] =
      some ⟨true, 0, true, true, true, true⟩ ∧
    step (⟨true, 0, true, true, true, true⟩ : SrvState) .beginOp = none ∧
    step (⟨true, 0, true, true, true, true⟩ : SrvState) .connAccept = none := by
  refine ⟨by decide, ?_, ?_⟩
  · exact ((shutdown_drains_and_gates
      [.beginOp, .shutdownCall, .endOp, .shutdownResume]
      ⟨true, 0, true, true, true, true⟩ (by decide)).2.2 rfl).2.2.2.1
  · exact ((shutdown_drains_and_gates
      [.beginOp, .shutdownCall, .endOp, .shutdownResume]
      ⟨true, 0, true, true, true, true⟩ (by decide)).2.2 rfl).2.2.2.2.1

/-- C3 — for every reply frame the client dispatches, the payload starts
at offset 9 for binary and UTF-8 replies and at offset 10 for UTF-16
replies, and the pending request is fulfilled with the matching payload
encoding and the 8-byte identifier from offsets 1–8. -/
theorem reply_payload_offsets (env : ClientEnv) (msg : List Nat) (tag : Nat)
    (h : msg.head? = some tag) :
    (tag = MsgReplyBinary →
      Client.handleMessage env msg =
        [.fulfill (extractMessageIdentifier msg) ⟨.binary, msg.drop 9⟩]) ∧
    (tag = MsgReplyUtf8 →
      Client.handleMessage env msg =
        [.fulfill (extractMessageIdentifier msg) ⟨.utf8, msg.drop 9⟩]) ∧
    (tag = MsgReplyUtf16 →
      Client.handleMessage env msg =
        [.fulfill (extractMessageIdentifier msg) ⟨.utf16, msg.drop 10⟩]) := by
  cases msg with
  | nil => simp at h
  | cons t rest =>
    have ht : t = tag := by
      simpa using h
    subst ht
    refine ⟨fun htag => ?_, fun htag => ?_, fun htag => ?_⟩ <;>
      subst htag <;> rfl

/-- C3 — witness: a concrete UTF-16 reply frame is fulfilled with the
identifier bytes 1–8 and the payload from offset 10. -/
theorem reply_payload_offsets_witness :
    Client.handleMessage envNoParse
        [MsgReplyUtf16, 1, 2, 3, 4, 5, 6, 7, 8, 0, 9, 9] =
      [.fulfill [1, 2, 3, 4, 5, 6, 7, 8] ⟨.utf16, [9, 9]⟩] :=
  (reply_payload_offsets envNoParse
    [MsgReplyUtf16, 1, 2, 3, 4, 5, 6, 7, 8, 0, 9, 9] MsgReplyUtf16 rfl).2.2 rfl

/-- A request frame whose name-length byte exceeds the remaining bytes
parses to an error carrying the recovered request identifier. -/
theorem parseRequestFrame_nameLen_overflow (reqId : List Nat) (n : Nat)
    (tail : List Nat) (h8 : reqId.length = 8) (hn : tail.length < n) :
    parseRequestFrame (MsgRequestBinary :: (reqId ++ n :: tail)) =
      .error (some reqId) := by
  simp only [parseRequestFrame]
  have hlen : ¬((reqId ++ n :: tail).length < 8) := by
    simp [h8]
  rw [if_neg hlen]
  have hdrop : (reqId ++ n :: tail).drop 8 = n :: tail := by
    rw [← h8]
    exact List.drop_left reqId (n :: tail)
  have htake : (reqId ++ n :: tail).take 8 = reqId := by
    rw [← h8]
    exact List.take_left reqId (n :: tail)
  rw [hdrop, htake]
  simp [hn]

/-- C5 — a binary request frame whose name-length byte exceeds the
remaining bytes is answered with exactly the 9 bytes
`[MsgReplyProtocolError]` followed by the recovered request identifier
and no payload. -/
theorem protocol_violation_reply (reqId : List Nat) (n : Nat)
    (tail : List Nat) (h8 : reqId.length = 8) (hn : tail.length < n) :
    serverProtocolErrorReply (MsgRequestBinary :: (reqId ++ n :: tail)) =
      some (MsgReplyProtocolError :: reqId) ∧
    (MsgReplyProtocolError :: reqId).length = 9 := by
  constructor
  · unfold serverProtocolErrorReply
    rw [parseRequestFrame_nameLen_overflow reqId n tail h8 hn]
  · simp [h8]

/-- C5 — witness: the spec's S7 frame (name length 3, one name byte)
yields exactly `[MsgReplyProtocolError, 0,0,0,0,0,0,0,0]`. -/
theorem protocol_violation_reply_witness :
    serverProtocolErrorReply
        [MsgRequestBinary, 0, 0, 0, 0, 0, 0, 0, 0, 3, 65] =
      some [MsgReplyProtocolError, 0, 0, 0, 0, 0, 0, 0, 0] :=
  (protocol_violation_reply [0, 0, 0, 0, 0, 0, 0, 0] 3 [65] rfl
    (by decide)).1

/-- C6 — RestoreSession on a disconnected client with autoconnect
disabled fails immediately with DisconnectedErr: nothing is sent on the
wire and the request deadline is never awaited. -/
theorem restore_disconnected_no_autoconnect (key : List Nat) :
    RestoreSession .disabled .disconnected key =
      { result := .error .disconnectedErr, sentFrames := [],
        waitedForDeadline := false } :=
  rfl

/-- C7 — the default session manager resolves `<key>.wwrsess` in its
directory; an absent file yields a null session and no error; a parseable
file yields a session carrying the looked-up key and the file's creation
and info fields; session files are written with mode 0640. -/
theorem default_session_lookup_spec (mng : DefaultSessionManager)
    (fs : FileSystem) (key : String) :
    (mng.filePath key = mng.path ++ "/" ++ key ++ ".wwrsess") ∧
    (fs.files.lookup (mng.filePath key) = none →
      mng.OnSessionLookup fs key = .ok none) ∧
    (∀ sessf, fs.files.lookup (mng.filePath key) = some (.parseable sessf) →
      mng.OnSessionLookup fs key =
        .ok (some ⟨key, sessf.Creation, 0, sessf.Info⟩)) ∧
    (∀ sessf p, (SessionFile.WriteFile sessf p).mode = 0o640) := by
  refine ⟨rfl, fun h => ?_, fun sessf h => ?_, fun sessf p => rfl⟩
  · unfold DefaultSessionManager.OnSessionLookup
    rw [h]
  · unfold DefaultSessionManager.OnSessionLookup
    rw [h]

/-- C7 — witness: at a concrete filesystem the present key parses to a
session with the file's fields and the absent key yields a null result. -/
theorem default_session_lookup_spec_witness :
    mngW.OnSessionLookup fsW ("k") = .ok (some ⟨"k", 7, 0, none⟩) ∧
    mngW.OnSessionLookup fsW ("absent") = .ok none := by
  constructor
  · exact (default_session_lookup_spec mngW fsW ("k")).2.2.1 ⟨7, none⟩
      (by decide)
  · exact (default_session_lookup_spec mngW fsW ("absent")).2.1 (by decide)

/-- C8 — an empty frame is dropped without any action, and a frame whose
tag has no dispatcher case produces exactly one warning log action,
leaving the session mirror unchanged. -/
theorem unknown_tag_dropped (env : ClientEnv) (session : Option Session)
    (msg : List Nat) (tag : Nat) :
    (Client.handleMessage env [] = []) ∧
    (msg.head? = some tag → tag ∉ knownClientTags →
      Client.handleMessage env msg = [.warnStrangeMessage tag] ∧
      applyActions session (Client.handleMessage env msg) = session) := by
  refine ⟨rfl, fun h hk => ?_⟩
  cases msg with
  | nil => simp at h
  | cons t rest =>
    have ht : t = tag := by
      simpa using h
    subst ht
    simp only [knownClientTags, List.mem_cons, List.not_mem_nil, or_false,
      not_or] at hk
    obtain ⟨h1, h2, h3, h4, h5, h6, h7, h8, h9, h10, h11, h12, h13, h14⟩ := hk
    have heq : Client.handleMessage env (t :: rest) =
        [.warnStrangeMessage t] := by
      simp only [Client.handleMessage]
      rw [if_neg h1, if_neg h2, if_neg h3, if_neg h4, if_neg h5, if_neg h6,
        if_neg h7, if_neg h8, if_neg h9, if_neg h10, if_neg h11, if_neg h12,
        if_neg h13, if_neg h14]
    exact ⟨heq, by rw [heq]; rfl⟩

/-- C8 — witness: tag 200 is not a dispatcher case; the frame produces
one warning and the session mirror survives untouched. -/
theorem unknown_tag_dropped_witness :
    (200 : Nat) ∉ knownClientTags ∧
    Client.handleMessage envNoParse [200, 1, 2] =
      [.warnStrangeMessage 200] ∧
    applyActions (some ⟨"a", 0, 0, none⟩)
      (Client.handleMessage envNoParse [200, 1, 2]) =
      some ⟨"a", 0, 0, none⟩ := by
  have h := (unknown_tag_dropped envNoParse (some ⟨"a", 0, 0, none⟩)
    [200, 1, 2] 200).2 rfl (by decide)
  exact ⟨by decide, h.1, h.2⟩

/-- C10 — when the session JSON of a MsgSessionCreated frame fails to
parse, the dispatcher only logs: the session mirror keeps its previous
value and the OnSessionCreated hook is not invoked. -/
theorem session_created_parse_failure (env : ClientEnv)
    (session : Option Session) (data : List Nat)
    (h : env.unmarshalSession data = none) :
    Client.handleMessage env (MsgSessionCreated :: data) =
      [.logParseError] ∧
    applyActions session
      (Client.handleMessage env (MsgSessionCreated :: data)) = session ∧
    (∀ s, ClientAction.sessionCreatedHook s ∉
      Client.handleMessage env (MsgSessionCreated :: data)) := by
  have heq : Client.handleMessage env (MsgSessionCreated :: data) =
      [.logParseError] := by
    have hred : Client.handleMessage env (MsgSessionCreated :: data) =
        Client.handleSessionCreated env data := rfl
    rw [hred]
    unfold Client.handleSessionCreated
    rw [h]
  refine ⟨heq, by rw [heq]; rfl, fun s => ?_⟩
  rw [heq]
  simp

/-- C10 — witness: a decoder that rejects the payload leaves a concrete
session mirror unchanged and yields only the log action. -/
theorem session_created_parse_failure_witness :
    Client.handleMessage envNoParse (MsgSessionCreated :: [7]) =
      [.logParseError] ∧
    applyActions (some ⟨"a", 1, 2, none⟩)
      (Client.handleMessage envNoParse (MsgSessionCreated :: [7])) =
      some ⟨"a", 1, 2, none⟩ := by
  have h := session_created_parse_failure envNoParse
    (some ⟨"a", 1, 2, none⟩) [7] rfl
  exact ⟨h.1, h.2.1⟩

end Webwire
